import Mathlib

/-!
Shallow embedding of the k3s-proxmox-helper proxy core: the data model of
src/cluster.rs, src/models.rs and src/config.rs, the synchronizer poll cycle,
the relay candidate search and the supervising select loop of src/main.rs,
and the admin handlers of src/cluster.rs. Remote HTTP fetches are abstracted
as already-decoded results (values or errors); everything else follows the
source line by line. Theorems settle the specification claims about
membership filtering, failover order, error propagation and the admin
endpoints.
-/

namespace K3sProxmoxHelper

/-- Configuration (src/config.rs, struct Config). -/
structure Config where
  certificates_path : String
  k3s_internal_network_interface : String
  port : Nat
  proxmox_api_url : String
  proxmox_api_user : String
  proxmox_api_password : String
deriving DecidableEq

/-- One SDN IPAM address record (src/cluster.rs, struct IpamEntry). -/
structure IpamEntry where
  zone : String
  hostname : Option String
  vmid : Option String
  vnet : String
  ip : String
  mac : Option String
  subnet : String
deriving DecidableEq

/-- One cluster node record (src/cluster.rs, struct NodeEntry). -/
structure NodeEntry where
  cpu : Float
  maxcpu : Int
  mem : Int
  maxmem : Int
  disk : Int
  maxdisk : Int
  uptime : Int
  status : String
  node : String
  level : String
  ssl_fingerprint : String

/-- One virtual machine record (src/cluster.rs, struct VirtualMachineEntry). -/
structure VirtualMachineEntry where
  status : String
  vmid : Int
  name : String
  template : Option Nat
deriving DecidableEq

/-- The JSON envelope of the Proxmox API (src/models.rs, struct ProxmoxData). -/
structure ProxmoxData (α : Type) where
  data : α
deriving DecidableEq

/-- The ticket payload (src/main.rs, struct ProxmoxTicket). -/
structure ProxmoxTicket where
  username : String
  ticket : String
  csrf_prevention_token : String
deriving DecidableEq

/-- Form parameters of the initial ticket request (src/main.rs lines 52-69,
generate_pve_ticket): the configured user name together with the long-lived
password. -/
def generate_pve_ticket_params (cfg : Config) : List (String × String) :=
  [("username", cfg.proxmox_api_user), ("password", cfg.proxmox_api_password)]

/-- Form parameters of a renewal request (src/main.rs lines 71-90,
renew_ticket): the configured user name, and the ticket string of the
ProxmoxData value passed in, sent as the password field. The long-lived
password of the configuration is not among the parameters. -/
def renew_ticket_params (cfg : Config) (ticket : ProxmoxData ProxmoxTicket) :
    List (String × String) :=
  [("username", cfg.proxmox_api_user), ("password", ticket.data.ticket)]

/-- The renewal timer duration of the supervising select loop
(src/main.rs line 224). -/
def renew_interval_secs : Nat := 600

/-- The poll interval of the synchronizer (src/main.rs line 117). -/
def poll_interval_secs : Nat := 10

/-- The function main binds pve_ticket once (src/main.rs line 190) and passes
a reference to that same immutable value at every renewal tick (line 225);
renew_ticket discards the response body and returns unit, so no later token
ever replaces the startup one. Hence the ticket used at the n-th tick is the
startup ticket, for every n. -/
def ticket_used_at_tick (startup : ProxmoxData ProxmoxTicket) (_n : Nat) :
    ProxmoxData ProxmoxTicket :=
  startup

/-- Completion of one long-running task, or a renewal tick, as observed by the
select expression of the supervising loop (src/main.rs lines 214-227). Each
task completion carries the result of the task; the renewal tick carries the
result of the renew_ticket call made in that branch. -/
inductive MainEvent
  | axumDone (r : Except String Unit)
  | syncDone (r : Except String Unit)
  | proxyDone (r : Except String Unit)
  | renewTick (r : Except String Unit)

/-- What the body of the supervising loop does after one event: leave the loop
and end the process with the given result of main, or keep looping. -/
inductive LoopOutcome
  | exitProcess (result : Except String Unit)
  | continueLoop

/-- One iteration of the supervising loop (src/main.rs lines 213-228): any of
the three task futures completing, with either result, breaks the loop and
main then returns ok; a renewal tick runs renew_ticket and, through the
question-mark operator, ends the process on a renewal error, otherwise the
loop continues. No branch restarts a task. -/
def main_select_step : MainEvent → LoopOutcome
  | .axumDone _ => .exitProcess (.ok ())
  | .syncDone _ => .exitProcess (.ok ())
  | .proxyDone _ => .exitProcess (.ok ())
  | .renewTick (.ok _) => .continueLoop
  | .renewTick (.error e) => .exitProcess (.error e)

/-- The record filter of the synchronizer (src/main.rs lines 129-133): keep an
IPAM record only if its hostname is present and starts with the string
k3s-server. No other condition is checked there. -/
def ipam_hostname_filter (ipam : IpamEntry) : Bool :=
  ipam.hostname.any (fun hostname => hostname.startsWith ("k3s-server"))

/-- The per-node fetch loop of one synchronizer cycle (src/main.rs lines
121-135): for each node, in order, fetch its IPAM records and keep those
passing the hostname filter; the question-mark on the fetch aborts the cycle
with the first error, before any later fetch. -/
def fetch_cycle_ipams : List NodeEntry → (String → Except String (List IpamEntry)) →
    Except String (List IpamEntry)
  | [], _ => .ok []
  | node :: rest, ipamsFor =>
    match ipamsFor node.node with
    | .error e => .error e
    | .ok node_ipams =>
      match fetch_cycle_ipams rest ipamsFor with
      | .error e => .error e
      | .ok acc => .ok (node_ipams.filter ipam_hostname_filter ++ acc)

/-- One poll cycle of synchronize_ipams (src/main.rs lines 116-138): fetch the
node list, then the IPAM records of each node, filtered by hostname; any fetch
error aborts the cycle before the send on the watch channel. -/
def synchronize_ipams_cycle (nodesRes : Except String (List NodeEntry))
    (ipamsFor : String → Except String (List IpamEntry)) :
    Except String (List IpamEntry) :=
  match nodesRes with
  | .error e => .error e
  | .ok nodes => fetch_cycle_ipams nodes ipamsFor

/-- The snapshot the cycle hands to the send call on the watch channel
(src/main.rs line 137): a value is sent only when the cycle reached the send,
that is, returned ok; an aborted cycle publishes nothing. -/
def published_snapshot (cycle : Except String (List IpamEntry)) :
    Option (List IpamEntry) :=
  match cycle with
  | .ok ipams => some ipams
  | .error _ => none

/-- Modelled from the spec: the eligibility filter the spec claims for
membership (sections 4.2 and 8): network segment equal to the configured
internal segment, identity present, and the first workload record with
matching identity a non-template with status running. Stated from the words
of the spec, for comparison with the filter actually present in the source. -/
def spec_eligible (cfg : Config) (vms : List VirtualMachineEntry)
    (entry : IpamEntry) : Bool :=
  entry.vnet == cfg.k3s_internal_network_interface &&
  entry.vmid.isSome &&
  (vms.find? (fun v => entry.vmid.any (fun vmid => vmid == toString v.vmid))).any
    (fun v => v.template.isNone && v.status == "running")

/-- The candidate-search loop of a relay task (src/main.rs lines 150-164):
ipam_idx starts at 0; an index past the end of the list yields none; a
successful connect to the ip of the candidate at the current index yields that
index; a failed connect advances the index by one. The connect outcome is
abstracted as a boolean function of the target ip. -/
def find_egress_from : List IpamEntry → (String → Bool) → Nat → Option Nat
  | [], _, _ => none
  | ipam :: rest, connect, ipam_idx =>
    if connect ipam.ip then some ipam_idx
    else find_egress_from rest connect (ipam_idx + 1)

/-- The whole candidate search, from index 0 (src/main.rs line 150). -/
def find_egress (ipams : List IpamEntry) (connect : String → Bool) : Option Nat :=
  find_egress_from ipams connect 0

/-- The indices the loop attempts a connect on, in the order attempted:
every index before the stopping point exactly once, in increasing order. -/
def attempted_from : List IpamEntry → (String → Bool) → Nat → List Nat
  | [], _, _ => []
  | ipam :: rest, connect, ipam_idx =>
    if connect ipam.ip then [ipam_idx]
    else ipam_idx :: attempted_from rest connect (ipam_idx + 1)

/-- Attempted indices of a whole connection attempt, from index 0. -/
def attempted_candidates (ipams : List IpamEntry) (connect : String → Bool) :
    List Nat :=
  attempted_from ipams connect 0

/-- Outcome of a relay task after the candidate search (src/main.rs lines
166-181): either bytes are relayed against the connection of the candidate at
the found index, or the task reaches the aborting branch at line 169, which
invokes the panicking macro instead of closing the inbound connection
gracefully and logging the failure. -/
inductive RelayOutcome
  | relayed (ipam_idx : Nat)
  | panicked
deriving DecidableEq

/-- The choice a relay task makes (src/main.rs lines 149-181). -/
def relay_task (ipams : List IpamEntry) (connect : String → Bool) : RelayOutcome :=
  match find_egress ipams connect with
  | some ipam_idx => .relayed ipam_idx
  | none => .panicked

/-- State of the proxy accept loop and its spawned relay tasks: the current
value of the watch channel, and, for each spawned task, the vector it cloned
out of the channel when its connection was accepted (src/main.rs line 147
clones, line 149 moves the clone into the task). -/
structure ProxyState where
  cell : List IpamEntry
  tasks : List (List IpamEntry)

/-- The two events that touch membership data: the synchronizer sending a new
value through the watch channel (src/main.rs line 137), and the accept loop
cloning the current value for a newly spawned relay task (lines 145-149). -/
inductive ProxyEvent
  | publish (snapshot : List IpamEntry)
  | accept

/-- Effect of one event on the proxy state. A publish replaces only the cell;
an accept appends the current cell value as the candidate list of the new
task and leaves existing tasks untouched. -/
def proxy_step (s : ProxyState) : ProxyEvent → ProxyState
  | .publish snapshot => { s with cell := snapshot }
  | .accept => { s with tasks := s.tasks ++ [s.cell] }

/-- Effect of a sequence of events on the proxy state. -/
def proxy_run (s : ProxyState) : List ProxyEvent → ProxyState
  | [] => s
  | ev :: evs => proxy_run (proxy_step s ev) evs

/-- The GET /cluster/nodes handler (src/cluster.rs lines 94-128), with the
remote fetches abstracted as already-decoded per-node results: for each node,
its IPAM records filtered by the literal vnet string vnet1 (the configured
value is commented out in the source at line 110), by difference from the
caller address, by presence of a vmid, and by the first vmid-matching virtual
machine being a non-template with status running; the kept records of all
nodes are concatenated in node order. -/
def get_nodes_infos (addr : String) (nodes : List NodeEntry)
    (vmsFor : String → List VirtualMachineEntry)
    (ipamsFor : String → List IpamEntry) : List IpamEntry :=
  (nodes.map (fun node =>
    ((((ipamsFor node.node).filter (fun entry => entry.vnet == "vnet1")).filter
        (fun entry => addr != entry.ip)).filter
        (fun entry => entry.vmid.isSome)).filter
      (fun entry =>
        ((vmsFor node.node).find? (fun v =>
            entry.vmid.any (fun vmid => vmid == toString v.vmid))).any
          (fun v => v.template.isNone && v.status == "running")))).flatten

/-- Modelled from the spec: the record set GET /cluster/nodes is claimed to
return: eligibility as in spec_eligible plus exclusion of the record equal to
the caller address. Stated from the words of the spec, for comparison with
the handler in the source. -/
def spec_nodes_eligible (cfg : Config) (addr : String)
    (vms : List VirtualMachineEntry) (entry : IpamEntry) : Bool :=
  spec_eligible cfg vms entry && addr != entry.ip

/-- The GET /cluster/current handler (src/cluster.rs lines 168-187), with the
per-node IPAM fetches abstracted as their decoded results in node order: in
the records of each node, among those with a vmid present, find the first
whose ip equals the caller address and return its unwrapped vmid; if no node
yields a match, return the VM-not-found error. -/
def get_current_node_id (addr : String) : List (List IpamEntry) → Except String String
  | [] => .error ("VM not found")
  | ipams :: rest =>
    match (ipams.filter (fun ipam => ipam.vmid.isSome)).find?
        (fun ipam => addr == ipam.ip) with
    | some found => .ok found.vmid.get!
    | none => get_current_node_id addr rest

/-- A configuration holding the reference defaults of src/config.rs. -/
def cfg0 : Config :=
  { certificates_path := "/srv/k8s/certificates"
    k3s_internal_network_interface := "vnet1"
    port := 3000
    proxmox_api_url := "https://localhost:8006"
    proxmox_api_user := "root@pam"
    proxmox_api_password := "pw" }

/-- The reference configuration with a non-default internal segment. -/
def cfg2 : Config := { cfg0 with k3s_internal_network_interface := "vnet2" }

/-- A concrete cluster node. -/
def node0 : NodeEntry :=
  { cpu := 0.0, maxcpu := 4, mem := 0, maxmem := 0, disk := 0, maxdisk := 0,
    uptime := 0, status := "online", node := "pve1", level := "",
    ssl_fingerprint := "" }

/-- A concrete running, non-template virtual machine with id 100. -/
def vm100 : VirtualMachineEntry :=
  { status := "running", vmid := 100, name := "k3s-server-1", template := none }

/-- A record that passes the eligibility filter of the spec against cfg0 and
vm100 but has no hostname. -/
def entryA : IpamEntry :=
  { zone := "zone1", hostname := none, vmid := some ("100"), vnet := "vnet1",
    ip := "10.0.0.5", mac := none, subnet := "10.0.0.0/24" }

/-- A record in segment vnet2 with hostname, identity and a running
non-template workload. -/
def entryB : IpamEntry :=
  { zone := "zone1", hostname := some ("k3s-server-1"), vmid := some ("100"),
    vnet := "vnet2", ip := "10.0.0.5", mac := none, subnet := "10.0.0.0/24" }

/-- A concrete startup ticket. -/
def ticket0 : ProxmoxData ProxmoxTicket :=
  { data := { username := "root@pam", ticket := "PVE:root@pam:4EEC61E2",
              csrf_prevention_token := "CSRFVALUE" } }

/-- Three candidate records at distinct addresses, for the failover example. -/
def ipamX : IpamEntry :=
  { zone := "zone1", hostname := some ("k3s-server-1"), vmid := some ("101"),
    vnet := "vnet1", ip := "10.0.0.1", mac := none, subnet := "10.0.0.0/24" }

/-- Second candidate of the failover example. -/
def ipamY : IpamEntry :=
  { zone := "zone1", hostname := some ("k3s-server-2"), vmid := some ("102"),
    vnet := "vnet1", ip := "10.0.0.2", mac := none, subnet := "10.0.0.0/24" }

/-- Third candidate of the failover example. -/
def ipamZ : IpamEntry :=
  { zone := "zone1", hostname := some ("k3s-server-3"), vmid := some ("103"),
    vnet := "vnet1", ip := "10.0.0.3", mac := none, subnet := "10.0.0.0/24" }

/-- A connect oracle under which only the third address accepts. -/
def connect_only_z : String → Bool := fun ip => ip == "10.0.0.3"

/-- A cycle whose fetches all succeed filters each node batch by hostname and
concatenates in node order. -/
theorem fetch_cycle_ipams_ok (ipamsFor : String → List IpamEntry) :
    ∀ nodes : List NodeEntry,
      fetch_cycle_ipams nodes (fun node => Except.ok (ipamsFor node)) =
        Except.ok ((nodes.map (fun node =>
          (ipamsFor node.node).filter ipam_hostname_filter)).flatten) := by
  intro nodes
  induction nodes with
  | nil => rfl
  | cons node rest ih => simp [fetch_cycle_ipams, ih]

/-- If the IPAM fetch of some listed node fails, the whole per-node loop
fails with some error. -/
theorem fetch_cycle_ipams_error (ipamsFor : String → Except String (List IpamEntry)) :
    ∀ (nodes : List NodeEntry) (node : NodeEntry), node ∈ nodes →
      (∃ e, ipamsFor node.node = Except.error e) →
      ∃ e, fetch_cycle_ipams nodes ipamsFor = Except.error e := by
  intro nodes
  induction nodes with
  | nil => intro node h; simp at h
  | cons hd tl ih =>
    intro node hmem herr
    cases hfetch : ipamsFor hd.node with
    | error e => exact ⟨e, by simp [fetch_cycle_ipams, hfetch]⟩
    | ok l =>
      rcases List.mem_cons.mp hmem with rfl | htl
      · simp [hfetch] at herr
      · rcases ih node htl herr with ⟨e, he⟩
        exact ⟨e, by simp [fetch_cycle_ipams, hfetch, he]⟩

/-- An index on which a list lookup succeeds is inside the list. -/
theorem lt_length_of_getElem?_some {α : Type} (l : List α) (i : Nat) (v : α)
    (h : l[i]? = some v) : i < l.length := by
  by_contra hlt
  rw [List.getElem?_eq_none (by omega)] at h
  cases h

/-- Later events never change the candidate list an existing task holds. -/
theorem proxy_run_keeps_task (evs : List ProxyEvent) :
    ∀ (s : ProxyState) (i : Nat) (v : List IpamEntry),
      s.tasks[i]? = some v → (proxy_run s evs).tasks[i]? = some v := by
  induction evs with
  | nil => intro s i v h; exact h
  | cons ev evs ih =>
    intro s i v h
    cases ev with
    | publish snapshot => exact ih _ _ _ h
    | accept =>
      apply ih
      have hi : i < s.tasks.length := lt_length_of_getElem?_some _ _ _ h
      show (s.tasks ++ [s.cell])[i]? = some v
      rw [List.getElem?_append, if_pos hi]
      exact h

/-- Characterization of the candidate-search loop started at offset k: a
found index is the offset plus a list position whose entry accepts the
connect, every earlier position refuses it, and the attempted indices are
exactly the contiguous range from the offset through the found index. -/
theorem find_egress_from_spec (connect : String → Bool) :
    ∀ (l : List IpamEntry) (k i : Nat), find_egress_from l connect k = some i →
      ∃ j, i = k + j ∧
        (∃ e, l[j]? = some e ∧ connect e.ip = true) ∧
        (∀ m, m < j → ∃ e, l[m]? = some e ∧ connect e.ip = false) ∧
        attempted_from l connect k = List.range' k (j + 1) := by
  intro l
  induction l with
  | nil => intro k i h; simp [find_egress_from] at h
  | cons hd tl ih =>
    intro k i h
    cases hc : connect hd.ip with
    | true =>
      simp [find_egress_from, hc] at h
      refine ⟨0, by omega, ⟨hd, by simp, hc⟩, fun m hm => absurd hm (by omega), ?_⟩
      simp [attempted_from, hc, List.range'_one]
    | false =>
      simp [find_egress_from, hc] at h
      obtain ⟨j, hij, ⟨e, he, hce⟩, hall, hatt⟩ := ih (k + 1) i h
      refine ⟨j + 1, by omega, ⟨e, by simpa using he, hce⟩, ?_, ?_⟩
      · intro m hm
        cases m with
        | zero => exact ⟨hd, by simp, hc⟩
        | succ m' =>
          obtain ⟨e', he', hce'⟩ := hall m' (by omega)
          exact ⟨e', by simpa using he', hce'⟩
      · simp [attempted_from, hc, hatt, List.range'_succ]

/-- Claim C1 counterexample: an address record that passes the eligibility
filter claimed by the spec (segment equal to the configured internal segment,
identity present, running non-template workload) is nevertheless absent from
the snapshot the cycle publishes, because the synchronizer filters only by
the hostname prefix k3s-server and the record has no hostname. The published
snapshot is empty, so it does not contain exactly the eligible records. -/
theorem c1_counterexample :
    spec_eligible cfg0 [vm100] entryA = true ∧
    published_snapshot (synchronize_ipams_cycle (Except.ok [node0])
      (fun _ => Except.ok [entryA])) = some [] ∧
    entryA ∉ ([] : List IpamEntry) := by
  refine ⟨by decide, rfl, by simp⟩

/-- Claim C1 (amended): for every poll cycle whose fetches all succeed, the
snapshot the synchronizer publishes contains a record exactly when the record
is among the fetched records of some listed node and its hostname is present
and starts with k3s-server; the segment, identity and workload conditions of
the spec are not applied in this path. -/
theorem c1_amended_hostname_filter (nodes : List NodeEntry)
    (ipamsFor : String → List IpamEntry) (entry : IpamEntry) :
    ∃ s, published_snapshot (synchronize_ipams_cycle (Except.ok nodes)
        (fun node => Except.ok (ipamsFor node))) = some s ∧
      (entry ∈ s ↔ (∃ node ∈ nodes, entry ∈ ipamsFor node.node) ∧
        ipam_hostname_filter entry = true) := by
  refine ⟨(nodes.map (fun node =>
    (ipamsFor node.node).filter ipam_hostname_filter)).flatten, ?_, ?_⟩
  · simp [synchronize_ipams_cycle, fetch_cycle_ipams_ok ipamsFor nodes,
      published_snapshot]
  · constructor
    · intro h
      rcases List.mem_flatten.mp h with ⟨l, hl, hel⟩
      rcases List.mem_map.mp hl with ⟨node, hnode, rfl⟩
      rcases List.mem_filter.mp hel with ⟨hmem, hpred⟩
      exact ⟨⟨node, hnode, hmem⟩, hpred⟩
    · rintro ⟨⟨node, hnode, hmem⟩, hpred⟩
      exact List.mem_flatten.mpr ⟨_, List.mem_map.mpr ⟨node, hnode, rfl⟩,
        List.mem_filter.mpr ⟨hmem, hpred⟩⟩

/-- Claim C2: at a connection whose snapshot has no candidate accepting a
connection, the relay task reaches the aborting branch of src/main.rs line
169 (the panicking macro) instead of gracefully closing the inbound
connection and logging a per-connection failure as the claim requires. -/
theorem c2_exhaustion_panics :
    relay_task [entryA] (fun _ => false) = RelayOutcome.panicked := rfl

/-- Claim C3: when the candidate search of a relay task over a non-empty
snapshot finds index i, the task attempted exactly the indices 0 through i in
increasing order and each exactly once, the candidate at i accepts the
connect, every earlier candidate refuses it, and the relay proceeds against
the candidate at i. -/
theorem c3_linear_failover (ipams : List IpamEntry) (connect : String → Bool)
    (i : Nat) (hne : ipams ≠ []) (h : find_egress ipams connect = some i) :
    relay_task ipams connect = RelayOutcome.relayed i ∧
    attempted_candidates ipams connect = List.range (i + 1) ∧
    (∃ e, ipams[i]? = some e ∧ connect e.ip = true) ∧
    (∀ m, m < i → ∃ e, ipams[m]? = some e ∧ connect e.ip = false) := by
  obtain ⟨j, hij, hsucc, hfail, hatt⟩ := find_egress_from_spec connect ipams 0 i h
  have hj : j = i := by omega
  subst hj
  refine ⟨by simp [relay_task, h], ?_, hsucc, hfail⟩
  rw [List.range_eq_range']
  exact hatt

/-- Concrete instantiation of c3_linear_failover at the spec example: a
three-candidate snapshot where only the third address accepts. -/
theorem c3_linear_failover_witness :
    relay_task [ipamX, ipamY, ipamZ] connect_only_z = RelayOutcome.relayed 2 ∧
    attempted_candidates [ipamX, ipamY, ipamZ] connect_only_z = List.range 3 :=
  ⟨(c3_linear_failover [ipamX, ipamY, ipamZ] connect_only_z 2 (by decide)
      (by decide)).1,
   (c3_linear_failover [ipamX, ipamY, ipamZ] connect_only_z 2 (by decide)
      (by decide)).2.1⟩

/-- Claim C5: if the node-list fetch fails, or the IPAM fetch of any listed
node fails, the poll cycle returns an error, nothing is sent on the watch
channel for that cycle, and the completion of the synchronizer task makes the
supervising loop end the process. -/
theorem c5_sub_fetch_error_fatal (nodesRes : Except String (List NodeEntry))
    (ipamsFor : String → Except String (List IpamEntry))
    (h : (∃ e, nodesRes = Except.error e) ∨
      ∃ nodes, nodesRes = Except.ok nodes ∧
        ∃ node ∈ nodes, ∃ e, ipamsFor node.node = Except.error e) :
    (∃ e, synchronize_ipams_cycle nodesRes ipamsFor = Except.error e) ∧
    published_snapshot (synchronize_ipams_cycle nodesRes ipamsFor) = none ∧
    (∀ r, main_select_step (MainEvent.syncDone r) =
      LoopOutcome.exitProcess (Except.ok ())) := by
  have herr : ∃ e, synchronize_ipams_cycle nodesRes ipamsFor = Except.error e := by
    rcases h with ⟨e, he⟩ | ⟨nodes, hn, node, hmem, herr2⟩
    · exact ⟨e, by simp [synchronize_ipams_cycle, he]⟩
    · subst hn
      rcases fetch_cycle_ipams_error ipamsFor nodes node hmem herr2 with ⟨e, he⟩
      exact ⟨e, by simp [synchronize_ipams_cycle, he]⟩
  rcases herr with ⟨e, he⟩
  exact ⟨⟨e, he⟩, by simp [published_snapshot, he], fun r => rfl⟩

/-- Concrete instantiation of c5_sub_fetch_error_fatal at a failed node-list
fetch. -/
theorem c5_sub_fetch_error_fatal_witness :
    published_snapshot (synchronize_ipams_cycle (Except.error ("connection refused"))
      (fun _ => Except.ok [])) = none ∧
    main_select_step (MainEvent.syncDone (Except.ok ())) =
      LoopOutcome.exitProcess (Except.ok ()) :=
  ⟨(c5_sub_fetch_error_fatal (Except.error ("connection refused"))
      (fun _ => Except.ok []) (Or.inl ⟨"connection refused", rfl⟩)).2.1,
   (c5_sub_fetch_error_fatal (Except.error ("connection refused"))
      (fun _ => Except.ok []) (Or.inl ⟨"connection refused", rfl⟩)).2.2
      (Except.ok ())⟩

/-- Claim C6: in the supervising loop, the completion of any one of the three
long-running tasks, with either a normal or an error result, makes the loop
body leave the loop, ending the process; no branch continues looping or
restarts a task. -/
theorem c6_task_termination_ends_process :
    (∀ r, main_select_step (MainEvent.axumDone r) =
      LoopOutcome.exitProcess (Except.ok ())) ∧
    (∀ r, main_select_step (MainEvent.syncDone r) =
      LoopOutcome.exitProcess (Except.ok ())) ∧
    (∀ r, main_select_step (MainEvent.proxyDone r) =
      LoopOutcome.exitProcess (Except.ok ())) :=
  ⟨fun _ => rfl, fun _ => rfl, fun _ => rfl⟩

/-- Claim C7 counterexample: the renewal request does not carry the original
long-lived secret: with the reference configuration and a concrete startup
ticket, the configured password is not among the renewal form parameter
values (the request carries the user name and the ticket string only). -/
theorem c7_counterexample :
    ¬ cfg0.proxmox_api_password ∈ (renew_ticket_params cfg0 ticket0).map Prod.snd := by
  decide

/-- Claim C7 (amended): the renewal timer is a fixed 600 seconds; the ticket
used at every tick is the startup ticket (renewal responses are discarded, so
it is also the most recently obtained one); each renewal request carries the
configured user name and that ticket string, not the long-lived password; and
a renewal error ends the process with that error. -/
theorem c7_renewal_behavior (cfg : Config) (startup : ProxmoxData ProxmoxTicket)
    (n : Nat) :
    renew_interval_secs = 600 ∧
    ticket_used_at_tick startup n = startup ∧
    renew_ticket_params cfg (ticket_used_at_tick startup n) =
      [("username", cfg.proxmox_api_user), ("password", startup.data.ticket)] ∧
    (∀ e, main_select_step (MainEvent.renewTick (Except.error e)) =
      LoopOutcome.exitProcess (Except.error e)) :=
  ⟨rfl, rfl, rfl, fun _ => rfl⟩

/-- Claim C8: a relay task accepted while the cell holds a given snapshot
keeps exactly that snapshot as its candidate list after any sequence of later
events, publishes included: the lookup of the task created by the accept step
returns the cell value at accept time, whatever runs afterwards. -/
theorem c8_snapshot_fixed_at_accept (s : ProxyState) (evs : List ProxyEvent) :
    (proxy_run (proxy_step s ProxyEvent.accept) evs).tasks[s.tasks.length]? =
      some s.cell := by
  apply proxy_run_keeps_task
  show (s.tasks ++ [s.cell])[s.tasks.length]? = some s.cell
  exact List.getElem?_concat_length s.tasks s.cell

/-- Claim C9: with the internal segment configured as vnet2, a record in
segment vnet2 that satisfies every eligibility condition the claim states
(configured segment, identity present, running non-template workload,
distinct from the caller address) is excluded from the GET /cluster/nodes
response, because the handler compares against the hardcoded literal vnet1
(the configured value is commented out at src/cluster.rs line 110). -/
theorem c9_vnet_hardcoded :
    spec_nodes_eligible cfg2 "10.0.0.9" [vm100] entryB = true ∧
    get_nodes_infos "10.0.0.9" [node0] (fun _ => [vm100]) (fun _ => [entryB]) = [] := by
  refine ⟨by decide, rfl⟩

/-- Claim C10: on every decoded inventory response, the GET /cluster/current
handler returns either the VM-not-found error or the identity of a matched
record; in the second case the matched record comes from the records already
filtered to carry an identity, its ip equals the caller address, and its
identity option is some value, so the unwrap returns that value and never
hits the none branch. -/
theorem c10_unwrap_safe (addr : String) (ipamss : List (List IpamEntry)) :
    get_current_node_id addr ipamss = Except.error ("VM not found") ∨
    ∃ ipams ∈ ipamss, ∃ entry ∈ ipams, addr = entry.ip ∧
      ∃ v, entry.vmid = some v ∧ get_current_node_id addr ipamss = Except.ok v := by
  induction ipamss with
  | nil => left; rfl
  | cons ipams rest ih =>
    cases hfind : (ipams.filter (fun ipam => ipam.vmid.isSome)).find?
        (fun ipam => addr == ipam.ip) with
    | some found =>
      right
      have hmemf := List.mem_of_find?_eq_some hfind
      have hpred := List.find?_some hfind
      have hmem := (List.mem_filter.mp hmemf).1
      have hsome := (List.mem_filter.mp hmemf).2
      obtain ⟨v, hv⟩ := Option.isSome_iff_exists.mp hsome
      refine ⟨ipams, by simp, found, hmem, eq_of_beq hpred, v, hv, ?_⟩
      simp [get_current_node_id, hfind, hv]
    | none =>
      rcases ih with h | ⟨l, hl, entry, hentry, hrest⟩
      · left; simp [get_current_node_id, hfind, h]
      · right
        exact ⟨l, List.mem_cons_of_mem _ hl, entry, hentry,
          by simpa [get_current_node_id, hfind] using hrest⟩

end K3sProxmoxHelper
